import Mathlib

set_option maxRecDepth 4000

set_option maxHeartbeats 1000000

/-!
Shallow embedding of the GT911 capacitive-touch driver
(`driver/esp32/gt911.py`, MicroPython).

The driver talks to the controller over I2C: every interaction is either a
write of a byte sequence or a read of a fixed number of bytes.  We model the
controller as a map from 16-bit register addresses to byte values (a
sequential n-byte read after a 2-byte address write returns n consecutive
registers), and each driver operation as the list of bus transactions it
issues, paired with its return value.

MicroPython `bytearray` item assignment truncates the stored value to its low
8 bits (two's complement for negative values); the embedding therefore
reduces every stored value mod 256 exactly where the Python code stores into
`bytearray` cells.  The averaging step `int(sum(xs) / len(xs))` uses float
division followed by truncation toward zero; for the reachable values
(sums below 2^20, divisor at most 15) binary64 rounding can never carry the
quotient across an integer boundary, so it coincides with natural-number
floor division, which is how it is embedded.
-/

namespace GT911

/-- A bus transaction issued by the driver to the fixed peripheral address
0x5D: either a write of the given bytes, or a read that returned the given
bytes. -/
inductive Tx where
  | wr : List Nat → Tx
  | rd : List Nat → Tx
deriving DecidableEq

/-- The touch controller, modelled as the byte value it presents at each
16-bit register address. -/
structure Device where
  regs : Nat → Nat

/-- Register constants from the source. -/
def GT911_REG_COMMAND : Nat := 0x8040

def GT911_REG_CONFIG_DATA : Nat := 0x8047

def GT911_REG_ID : Nat := 0x8140

def GT911_REG_FW_VER : Nat := 0x8144

def GT911_READ_COORD_ADDR : Nat := 0x814E

def GT911_POINT1_X_ADDR : Nat := 0x8150

def GT911_CMD_READ : Nat := 0x00

def GT911_CMD_CALIBRATE : Nat := 0x04

/-- Bytes returned by a sequential read of `n` bytes starting at register
`a`: one byte (hence the mod 256) per consecutive register. -/
def readBytes (dev : Device) (a n : Nat) : List Nat :=
  (List.range n).map (fun i => dev.regs (a + i) % 256)

/-- Big-endian split of a 16-bit register address into the two bytes the
driver transmits: `(addr & 0xFF00) >> 8` followed by `addr & 0xFF`. -/
def addrBytes (a : Nat) : List Nat :=
  [(a &&& 0xFF00) >>> 8, a &&& 0xFF]

/-- The first nine entries of the `config` bytearray built in `GT911.init`:
two address bytes for register 0x8047, the config-version byte 0x81, the
panel width and height split into low/high bytes, the touch limit 1 and the
module-switch byte `1 << 2`. -/
def configHead (w h : Nat) : List Nat :=
  [(GT911_REG_CONFIG_DATA &&& 0xFF00) >>> 8,
   GT911_REG_CONFIG_DATA &&& 0xFF, 0x81,
   w &&& 0xFF, (w >>> 8) &&& 0xFF,
   h &&& 0xFF, (h >>> 8) &&& 0xFF, 1, 1 <<< 2]

/-- The remaining 179 constant entries of the `config` bytearray in
`GT911.init`, transcribed in source order. -/
def configTail : List Nat :=
  [0x20, 0x01, 0x08, 0x28, 0x05, 0x50,
   0x3C, 0x0F, 0x05, 0x00, 0x00, 0x00, 0x00, 0x00, 0x00, 0x00, 0x00, 0x00, 0x00,
   0x00, 0x89, 0x2A, 0x0B, 0x2D, 0x2B, 0x0F, 0x0A, 0x00, 0x00, 0x01, 0xA9, 0x03,
   0x2D, 0x00, 0x01, 0x00, 0x00, 0x00, 0x03, 0x00, 0x00, 0x00, 0x00, 0x00, 0x21,
   0x59, 0x94, 0xC5, 0x02, 0x07, 0x00, 0x00, 0x04, 0x93, 0x24, 0x00, 0x7D, 0x2C,
   0x00, 0x6B, 0x36, 0x00, 0x5D, 0x42, 0x00, 0x53, 0x50, 0x00, 0x53, 0x00, 0x00,
   0x00, 0x00, 0x00, 0x00, 0x00, 0x00, 0x00, 0x00, 0x00, 0x00, 0x00, 0x00, 0x00,
   0x00, 0x00, 0x00, 0x00, 0x00, 0x00, 0x00, 0x00, 0x00, 0x00, 0x00, 0x00, 0x00,
   0x00, 0x00, 0x00, 0x00, 0x00, 0x00, 0x00, 0x00, 0x02, 0x04, 0x06, 0x08, 0x0A,
   0x0C, 0x0E, 0x10, 0x12, 0x14, 0x16, 0xFF, 0xFF, 0xFF, 0x00, 0x00, 0x00, 0x00,
   0x00, 0x00, 0x00, 0x00, 0x00, 0x00, 0x00, 0x00, 0x00, 0x00, 0x00, 0x00, 0x00,
   0x02, 0x04, 0x06, 0x08, 0x0A, 0x0F, 0x10, 0x12, 0x16, 0x18, 0x1C, 0x1D, 0x1E,
   0x1F, 0x20, 0x21, 0x22, 0x24, 0xFF, 0xFF, 0xFF, 0xFF, 0xFF, 0xFF, 0xFF, 0x00,
   0x00, 0x00, 0x00, 0x00, 0x00, 0x00, 0x00, 0x00, 0x00, 0x00, 0x00, 0x00, 0x00,
   0x00, 0x00, 0xD6, 0x01]

/-- The full 188-entry `config` bytearray of `GT911.init` before the
checksum loop runs: 2 address bytes followed by the 186-byte configuration
blob template. -/
def configTemplate (w h : Nat) : List Nat :=
  configHead w h ++ configTail

/-- The accumulator left in `config[184]` by the loop
`for i in range(184): config[184] += config[i]` after `config[184] = 0`;
each MicroPython bytearray store truncates mod 256. -/
def checksumAcc (cfg : List Nat) : Nat :=
  (cfg.take 184).foldl (fun acc b => (acc + b) % 256) 0

/-- The byte stored by `config[184] = (~config[184]) + 1`: for an
accumulator `acc` in 0..255, `(~acc) + 1 = -acc`, stored as its low 8 bits
`(256 - acc) % 256`. -/
def checksumByte (cfg : List Nat) : Nat :=
  (256 - checksumAcc cfg) % 256

/-- The `config` bytearray exactly as `GT911.init` transmits it: the
template with index 184 overwritten by the checksum computed over
indices 0..183. -/
def initConfig (w h : Nat) : List Nat :=
  (configTemplate w h).set 184 (checksumByte (configTemplate w h))

/-- The 186-byte configuration blob (registers 0x8047..0x8100): the
transmitted bytearray without its two leading address bytes. -/
def configBlob (w h : Nat) : List Nat :=
  (initConfig w h).drop 2

/-- The 3-byte transaction issued by `GT911.set_command_register`:
the two big-endian address bytes of register 0x8040 followed by the command
byte (stored through a bytearray cell, hence mod 256). -/
def set_command_register (c : Nat) : Tx :=
  Tx.wr [(GT911_REG_COMMAND &&& 0xFF00) >>> 8,
         GT911_REG_COMMAND &&& 0xFF, c % 256]

/-- The bus transactions issued by `GT911.init` for a device `dev` and the
session's panel width `w` and height `h`: the product-id read pair, the
firmware read pair, the single 188-byte configuration write, and the READ
(0x00) command write. -/
def initTxs (dev : Device) (w h : Nat) : List Tx :=
  [Tx.wr (addrBytes GT911_REG_ID), Tx.rd (readBytes dev GT911_REG_ID 4),
   Tx.wr (addrBytes GT911_REG_FW_VER), Tx.rd (readBytes dev GT911_REG_FW_VER 2),
   Tx.wr (initConfig w h),
   set_command_register GT911_CMD_READ]

/-- The status byte: the single byte read from register 0x814E by the
`status` property getter. -/
def statusByte (dev : Device) : Nat :=
  dev.regs GT911_READ_COORD_ADDR % 256

/-- The two transactions of the `status` property getter: a 2-byte address
write of 0x814E followed by a 1-byte read. -/
def statusReadTxs (dev : Device) : List Tx :=
  [Tx.wr (addrBytes GT911_READ_COORD_ADDR), Tx.rd [statusByte dev]]

/-- The transaction of the `status` property setter with value 0: the two
address bytes of 0x814E followed by the byte 0. -/
def clearStatusTx : Tx :=
  Tx.wr (addrBytes GT911_READ_COORD_ADDR ++ [0])

/-- Address of touch point `i`'s coordinate block: `0x8150 + i*8`. -/
def pointAddr (i : Nat) : Nat :=
  GT911_POINT1_X_ADDR + i * 8

/-- The 6 bytes read into `data_buf` for touch point `i`. -/
def pointBlock (dev : Device) (i : Nat) : List Nat :=
  readBytes dev (pointAddr i) 6

/-- The two transactions issued for touch point `i`: the 2-byte address
write of `0x8150 + i*8` and the 6-byte read. -/
def pointPairTxs (dev : Device) (i : Nat) : List Tx :=
  [Tx.wr (addrBytes (pointAddr i)), Tx.rd (pointBlock dev i)]

/-- Little-endian x decode from a point block:
`x = data_buf[0]; x |= data_buf[1] << 8`. -/
def decodeX (b : List Nat) : Nat :=
  b.getD 0 0 ||| (b.getD 1 0 <<< 8)

/-- Little-endian y decode from a point block:
`y = data_buf[2]; y |= data_buf[3] << 8`. -/
def decodeY (b : List Nat) : Nat :=
  b.getD 2 0 ||| (b.getD 3 0 <<< 8)

/-- `GT911._get_coords`: read the status byte; if bit 7 is clear, return
nothing having issued only the status read; if bit 7 is set with a zero low
nibble, clear the status and return nothing; otherwise read one
address-write/6-byte-read pair per reported point, average the decoded
coordinates with truncating division, clear the status and return the
averaged point.  The first component is the full bus-transaction trace, the
second the return value. -/
def getCoords (dev : Device) : List Tx × Option (Nat × Nat) :=
  let status := statusByte dev
  if status &&& 0x80 ≠ 0 then
    let coordNum := status &&& 0x0F
    if coordNum ≠ 0 then
      let coordX := (List.range coordNum).map (fun i => decodeX (pointBlock dev i))
      let coordY := (List.range coordNum).map (fun i => decodeY (pointBlock dev i))
      let x := coordX.sum / coordX.length
      let y := coordY.sum / coordY.length
      (statusReadTxs dev ++ (List.range coordNum).flatMap (pointPairTxs dev)
         ++ [clearStatusTx],
       some (x, y))
    else
      (statusReadTxs dev ++ [clearStatusTx], none)
  else
    (statusReadTxs dev, none)

/-- Concrete devices used to instantiate the theorems below: an idle
controller, a ready controller reporting zero points, one reporting the
three points (100,100), (102,104), (98,96), and one whose status low nibble
claims fifteen points. -/
def idleDev : Device := ⟨fun _ => 0⟩

/-- A device whose status byte is 0x80: ready, zero points. -/
def readyEmptyDev : Device := ⟨fun a => if a = 0x814E then 0x80 else 0⟩

/-- A device reporting three touch points (100,100), (102,104), (98,96). -/
def demoDev : Device :=
  ⟨fun a =>
    if a = 0x814E then 0x83
    else if a = 0x8150 then 100 else if a = 0x8152 then 100
    else if a = 0x8158 then 102 else if a = 0x815A then 104
    else if a = 0x8160 then 98 else if a = 0x8162 then 96
    else 0⟩

/-- A device whose status byte 0x8F reports fifteen points. -/
def packedDev : Device := ⟨fun a => if a = 0x814E then 0x8F else 0⟩

/-- Case analysis of `GT911._get_coords`: status bit 7 clear. -/
theorem getCoords_not_ready (dev : Device) (h : statusByte dev &&& 0x80 = 0) :
    getCoords dev = (statusReadTxs dev, none) := by
  simp [getCoords, h]

/-- Case analysis of `GT911._get_coords`: ready with zero points. -/
theorem getCoords_ready_zero (dev : Device) (h7 : statusByte dev &&& 0x80 ≠ 0)
    (h0 : statusByte dev &&& 0x0F = 0) :
    getCoords dev = (statusReadTxs dev ++ [clearStatusTx], none) := by
  simp [getCoords, h7, h0]

/-- Case analysis of `GT911._get_coords`: ready with a nonzero point count. -/
theorem getCoords_ready_pts (dev : Device) (h7 : statusByte dev &&& 0x80 ≠ 0)
    (hn : statusByte dev &&& 0x0F ≠ 0) :
    getCoords dev =
      (statusReadTxs dev
         ++ (List.range (statusByte dev &&& 0x0F)).flatMap (pointPairTxs dev)
         ++ [clearStatusTx],
       some
        ((((List.range (statusByte dev &&& 0x0F)).map
             (fun i => decodeX (pointBlock dev i))).sum / (statusByte dev &&& 0x0F)),
         (((List.range (statusByte dev &&& 0x0F)).map
             (fun i => decodeY (pointBlock dev i))).sum / (statusByte dev &&& 0x0F)))) := by
  simp [getCoords, h7, hn]

/-- Canonical form of the configuration blob: the version byte 0x81, the
four little-endian dimension bytes at blob offsets 1-4, the touch limit 1
and module-switch byte at offsets 5-6, then the constant tail with the
checksum overwriting tail position 175 = blob offset 182. -/
theorem configBlob_eq (w h : Nat) :
    configBlob w h =
      0x81 :: (w &&& 0xFF) :: ((w >>> 8) &&& 0xFF) :: (h &&& 0xFF) ::
        ((h >>> 8) &&& 0xFF) :: 1 :: (1 <<< 2) ::
          configTail.set 175 (checksumByte (configTemplate w h)) := by
  have h9 : (configHead w h).length = 9 := rfl
  rw [configBlob, initConfig, configTemplate,
      List.set_append_right 184 _ (by omega), h9]
  simp [configHead, List.drop]

/-- Helper: every byte of the constant template tail is below 256. -/
theorem configTail_lt (b : Nat) (hb : b ∈ configTail) : b < 256 := by
  revert b hb
  decide

/-- C1: the spec requires blob byte 184 to be the checksum
`((~sum(blob[0..184)) mod 256) + 1) mod 256` over the preceding 184 blob
bytes, excluding the two address-prefix bytes, so the first 185 blob bytes
sum to 0 mod 256.  The code violates this (shown here at width 320, height
240; every dimension pair behaves alike): the loop indexes the raw
transaction array, so the checksum lands at transaction index 184 = blob
offset 182 and its span includes the two address bytes 0x80 0x47, while
blob byte 184 (register 0x80FF, the controller's real checksum register)
keeps the template constant 0xD6 = 214.  The spec's formula yields 199, the
first 185 blob bytes sum to 15 mod 256, and the invariant that does hold is
over the transaction prefix: its first 185 bytes sum to 0 mod 256. -/
theorem C1_checksum_misplaced :
    (configBlob 320 240).getD 184 0 = 0xD6 ∧
    (256 - ((configBlob 320 240).take 184).sum % 256) % 256 = 199 ∧
    (configBlob 320 240).getD 184 0 ≠
      (256 - ((configBlob 320 240).take 184).sum % 256) % 256 ∧
    ((configBlob 320 240).take 185).sum % 256 = 15 ∧
    (configBlob 320 240).getD 182 0 = checksumByte (configTemplate 320 240) ∧
    ((initConfig 320 240).take 185).sum % 256 = 0 := by
  decide

/-- C2: building the configuration blob never fails for any panel width and
height: the constructed bytearray always has 188 entries (2 address bytes
plus the 186-byte blob) and every stored value is a valid byte below 256
(the dimension bytes are masked, the checksum store truncates mod 256 as
MicroPython bytearray assignment does). -/
theorem C2_config_construction_total (w h : Nat) :
    (initConfig w h).length = 188 ∧
    (initConfig w h).all (fun b => decide (b < 256)) = true := by
  constructor
  · rw [initConfig, List.length_set, configTemplate, List.length_append]
    rfl
  · rw [List.all_eq_true]
    intro b hb
    unfold initConfig at hb
    rcases List.mem_or_eq_of_mem_set hb with hb | heq
    · rw [configTemplate, List.mem_append] at hb
      rcases hb with hb | hb
      · simp only [configHead, List.mem_cons, List.not_mem_nil, or_false] at hb
        rcases hb with rfl | rfl | rfl | rfl | rfl | rfl | rfl | rfl | rfl <;>
          simp only [decide_eq_true_eq] <;>
          first
            | decide
            | exact lt_of_le_of_lt Nat.and_le_right (by decide)
      · simpa using configTail_lt b hb
    · rw [heq]
      simp only [decide_eq_true_eq, checksumByte]
      exact Nat.mod_lt _ (by decide)

/-- C3 counterexample: with width 4096, which overflows the 12-bit
coordinate encoding, `init` signals nothing: it issues its full
six-transaction sequence, the fifth transaction being the 188-byte
configuration upload, so bus traffic is generated and no
InvalidConfiguration error precedes it. -/
theorem C3_no_validation_cx :
    (initTxs idleDev 4096 768).length = 6 ∧
    (initTxs idleDev 4096 768).getD 4 (Tx.rd []) = Tx.wr (initConfig 4096 768) ∧
    (initConfig 4096 768).length = 188 := by
  refine ⟨rfl, rfl, rfl⟩

/-- C3 amended: `init` performs no dimension validation at all: even when
width or height is at least 4096 it signals no error, issues the same
six-transaction sequence including the configuration upload, and silently
truncates each dimension to the two bytes `d & 0xFF`, `(d >> 8) & 0xFF`
placed at blob offsets 1-4. -/
theorem C3_amended_no_validation (dev : Device) (w h : Nat)
    (hwh : 4096 ≤ w ∨ 4096 ≤ h) :
    (initTxs dev w h).length = 6 ∧
    (initTxs dev w h).getD 4 (Tx.rd []) = Tx.wr (initConfig w h) ∧
    (configBlob w h).getD 1 0 = w &&& 0xFF ∧
    (configBlob w h).getD 2 0 = (w >>> 8) &&& 0xFF ∧
    (configBlob w h).getD 3 0 = h &&& 0xFF ∧
    (configBlob w h).getD 4 0 = (h >>> 8) &&& 0xFF := by
  refine ⟨rfl, rfl, rfl, rfl, rfl, rfl⟩

/-- C3 amended, instantiated at width 4096, height 4096. -/
theorem C3_amended_witness :
    (initTxs idleDev 4096 4096).length = 6 ∧
    (initTxs idleDev 4096 4096).getD 4 (Tx.rd []) = Tx.wr (initConfig 4096 4096) ∧
    (configBlob 4096 4096).getD 1 0 = 4096 &&& 0xFF ∧
    (configBlob 4096 4096).getD 2 0 = (4096 >>> 8) &&& 0xFF ∧
    (configBlob 4096 4096).getD 3 0 = 4096 &&& 0xFF ∧
    (configBlob 4096 4096).getD 4 0 = (4096 >>> 8) &&& 0xFF :=
  C3_amended_no_validation idleDev 4096 4096 (Or.inl (by decide))

/-- C4 counterexample: at width 308, height 632, blob offset 3 holds
0x78, the height's low byte, not the width's low byte 0x34: in the 186-byte
blob the dimensions sit at offsets 1-4 (offsets 3-6 of the transmitted
transaction), not at blob offsets 3-6 as claimed. -/
theorem C4_offsets_cx :
    (configBlob 308 632).getD 3 0 = 0x78 ∧
    (configBlob 308 632).getD 3 0 ≠ 308 &&& 0xFF := by
  exact ⟨rfl, by decide⟩

/-- C4 amended: the configuration upload is a single 188-byte transaction;
in its 186-byte blob the width is little-endian at blob offsets 1-2 and the
height at offsets 3-4 (transaction offsets 3-6), the final blob byte, the
register 0x8100 refresh flag, equals 1, and every other blob byte except
the dimension bytes and the (misplaced) checksum byte at blob offset 182 is
the fixed vendor-default template, independent of width and height (the
closing conjunct exhibits the whole blob in that canonical form). -/
theorem C4_amended_layout (w h : Nat) :
    (initConfig w h).length = 188 ∧
    (configBlob w h).length = 186 ∧
    (configBlob w h).getD 1 0 = w &&& 0xFF ∧
    (configBlob w h).getD 2 0 = (w >>> 8) &&& 0xFF ∧
    (configBlob w h).getD 3 0 = h &&& 0xFF ∧
    (configBlob w h).getD 4 0 = (h >>> 8) &&& 0xFF ∧
    (configBlob w h).getD 185 0 = 1 ∧
    configBlob w h =
      0x81 :: (w &&& 0xFF) :: ((w >>> 8) &&& 0xFF) :: (h &&& 0xFF) ::
        ((h >>> 8) &&& 0xFF) :: 1 :: (1 <<< 2) ::
          configTail.set 175 (checksumByte (configTemplate w h)) := by
  refine ⟨?_, rfl, rfl, rfl, rfl, rfl, rfl, configBlob_eq w h⟩
  rw [initConfig, List.length_set, configTemplate, List.length_append]
  rfl

/-- C5: the status acknowledgment protocol of `_get_coords`: when the
status byte has bit 7 clear, the call returns no touch and its trace is the
status read alone - no coordinate transaction and no status-clear write;
when bit 7 is set with a zero point count, the call returns no touch and
its trace is the status read followed by exactly one status-clear write of
0 to 0x814E. -/
theorem C5_status_ack (dev : Device) :
    (statusByte dev &&& 0x80 = 0 →
       getCoords dev = (statusReadTxs dev, none)) ∧
    (statusByte dev &&& 0x80 ≠ 0 → statusByte dev &&& 0x0F = 0 →
       getCoords dev = (statusReadTxs dev ++ [clearStatusTx], none)) :=
  ⟨fun h => getCoords_not_ready dev h,
   fun h7 h0 => getCoords_ready_zero dev h7 h0⟩

/-- C5 instantiated: a device with status 0x00 and one with status 0x80. -/
theorem C5_status_ack_witness :
    getCoords idleDev = (statusReadTxs idleDev, none) ∧
    getCoords readyEmptyDev = (statusReadTxs readyEmptyDev ++ [clearStatusTx], none) :=
  ⟨(C5_status_ack idleDev).1 (by decide),
   (C5_status_ack readyEmptyDev).2 (by decide) (by decide)⟩

/-- C6: for any ready status with a nonzero point count, `_get_coords`
reduces the decoded points to the single integer-truncated arithmetic mean:
x is the floor of the sum of the decoded x coordinates divided by the
count, and likewise for y. -/
theorem C6_truncated_mean (dev : Device)
    (h7 : statusByte dev &&& 0x80 ≠ 0) (hn : statusByte dev &&& 0x0F ≠ 0) :
    (getCoords dev).2 =
      some
        ((((List.range (statusByte dev &&& 0x0F)).map
             (fun i => decodeX (pointBlock dev i))).sum / (statusByte dev &&& 0x0F)),
         (((List.range (statusByte dev &&& 0x0F)).map
             (fun i => decodeY (pointBlock dev i))).sum / (statusByte dev &&& 0x0F))) := by
  rw [getCoords_ready_pts dev h7 hn]

/-- C6 instantiated: the three points (100,100), (102,104), (98,96) reduce
to (100, 100). -/
theorem C6_truncated_mean_witness :
    (getCoords demoDev).2 = some (100, 100) := by
  have h := C6_truncated_mean demoDev (by decide) (by decide)
  exact h.trans (by decide)

/-- C7: for a ready status with nonzero count, the trace consists of the
status read, then for each point index i a 2-byte big-endian address write
of register 0x8150 + i*8 followed by a 6-byte read, then the status clear;
and x and y decode little-endian from bytes 0-3 of a point block, so the
block 0x34 0x01 0x78 0x02 0x00 0x00 decodes to x = 308, y = 632. -/
theorem C7_point_reads :
    (∀ dev : Device, statusByte dev &&& 0x80 ≠ 0 → statusByte dev &&& 0x0F ≠ 0 →
       (getCoords dev).1 =
         statusReadTxs dev
           ++ (List.range (statusByte dev &&& 0x0F)).flatMap
                (fun i => [Tx.wr (addrBytes (GT911_POINT1_X_ADDR + i * 8)),
                           Tx.rd (readBytes dev (GT911_POINT1_X_ADDR + i * 8) 6)])
           ++ [clearStatusTx]) ∧
    decodeX [0x34, 0x01, 0x78, 0x02, 0, 0] = 308 ∧
    decodeY [0x34, 0x01, 0x78, 0x02, 0, 0] = 632 := by
  refine ⟨fun dev h7 hn => ?_, by decide, by decide⟩
  have hfun : pointPairTxs dev = fun i =>
      [Tx.wr (addrBytes (GT911_POINT1_X_ADDR + i * 8)),
       Tx.rd (readBytes dev (GT911_POINT1_X_ADDR + i * 8) 6)] := by
    funext i
    simp only [pointPairTxs, pointAddr, pointBlock]
  rw [getCoords_ready_pts dev h7 hn, ← hfun]

/-- C7 instantiated at the three-point device: the full trace, fully
evaluated. -/
theorem C7_point_reads_witness :
    (getCoords demoDev).1 =
      [Tx.wr [0x81, 0x4E], Tx.rd [0x83],
       Tx.wr [0x81, 0x50], Tx.rd [100, 0, 100, 0, 0, 0],
       Tx.wr [0x81, 0x58], Tx.rd [102, 0, 104, 0, 0, 0],
       Tx.wr [0x81, 0x60], Tx.rd [98, 0, 96, 0, 0, 0],
       Tx.wr [0x81, 0x4E, 0]] := by
  have h := C7_point_reads.1 demoDev (by decide) (by decide)
  exact h.trans (by decide)

/-- Helper: the status-clear transaction is not among the status read or
any point address-write/read pair: its write carries 3 bytes while every
address write carries 2, and it is a write, not a read. -/
theorem clearStatusTx_not_mem (dev : Device) (n : Nat) :
    clearStatusTx ∉
      statusReadTxs dev ++ (List.range n).flatMap (pointPairTxs dev) := by
  intro hmem
  rcases List.mem_append.mp hmem with hmem | hmem
  · simp [statusReadTxs, clearStatusTx, addrBytes] at hmem
  · rcases List.mem_flatMap.mp hmem with ⟨i, -, hmem⟩
    simp [pointPairTxs, clearStatusTx, addrBytes] at hmem

/-- C8: whenever the reported point count is nonzero, the trace is the
status read and all coordinate address-write/read pairs followed by the
status-clear write as its final transaction; the clear never occurs among
the earlier transactions, so it comes strictly after every coordinate
read. -/
theorem C8_clear_after_coords (dev : Device)
    (h7 : statusByte dev &&& 0x80 ≠ 0) (hn : statusByte dev &&& 0x0F ≠ 0) :
    (getCoords dev).1 =
      (statusReadTxs dev
         ++ (List.range (statusByte dev &&& 0x0F)).flatMap (pointPairTxs dev))
        ++ [clearStatusTx] ∧
    clearStatusTx ∉
      statusReadTxs dev
        ++ (List.range (statusByte dev &&& 0x0F)).flatMap (pointPairTxs dev) := by
  constructor
  · rw [getCoords_ready_pts dev h7 hn]
  · exact clearStatusTx_not_mem dev (statusByte dev &&& 0x0F)

/-- C8 instantiated at the three-point device. -/
theorem C8_clear_after_coords_witness :
    (getCoords demoDev).1 =
      (statusReadTxs demoDev
         ++ (List.range (statusByte demoDev &&& 0x0F)).flatMap (pointPairTxs demoDev))
        ++ [clearStatusTx] ∧
    clearStatusTx ∉
      statusReadTxs demoDev
        ++ (List.range (statusByte demoDev &&& 0x0F)).flatMap (pointPairTxs demoDev) :=
  C8_clear_after_coords demoDev (by decide) (by decide)

/-- C9: for every command byte, `set_command_register` issues exactly one
3-byte write: the command register address 0x8040 split big-endian into
0x80, 0x40, followed by the command byte. -/
theorem C9_command_write (c : Nat) (hc : c < 256) :
    set_command_register c = Tx.wr [0x80, 0x40, c] := by
  unfold set_command_register GT911_REG_COMMAND
  rw [Nat.mod_eq_of_lt hc]
  norm_num
  exact ⟨by decide, by decide⟩

/-- C9 instantiated at the CALIBRATE command 0x04. -/
theorem C9_command_write_witness :
    set_command_register GT911_CMD_CALIBRATE = Tx.wr [0x80, 0x40, 0x04] :=
  C9_command_write GT911_CMD_CALIBRATE (by decide)

/-- Recognizer for a coordinate-block read: a 6-byte read transaction
(the status read is 1 byte, so only point reads match). -/
def isPointRead (t : Tx) : Bool :=
  match t with
  | Tx.rd b => b.length == 6
  | Tx.wr _ => false

/-- Helper: each point pair contributes exactly one 6-byte read. -/
theorem countP_pointPairs (dev : Device) (l : List Nat) :
    ((l.flatMap (pointPairTxs dev)).countP isPointRead) = l.length := by
  induction l with
  | nil => rfl
  | cons a t ih =>
    rw [List.flatMap_cons, List.countP_append, ih]
    have h1 : ((pointPairTxs dev a).countP isPointRead) = 1 := rfl
    rw [h1]
    simp [Nat.add_comm]

/-- C10: the point count is taken unclamped from bits 3:0 of the status
byte: whenever bit 7 is set, the trace contains exactly `status & 0x0F`
6-byte coordinate reads (one per address-write/read pair), for every low
nibble 0-15; no clamping to the controller's 5-point limit happens. -/
theorem C10_unclamped_count (dev : Device)
    (h7 : statusByte dev &&& 0x80 ≠ 0) :
    ((getCoords dev).1.countP isPointRead) = statusByte dev &&& 0x0F := by
  rcases Nat.eq_zero_or_pos (statusByte dev &&& 0x0F) with hn | hn
  · rw [getCoords_ready_zero dev h7 hn, hn]
    rfl
  · rw [getCoords_ready_pts dev h7 (Nat.pos_iff_ne_zero.mp hn)]
    rw [List.countP_append, List.countP_append,
        countP_pointPairs dev (List.range (statusByte dev &&& 0x0F)),
        List.length_range]
    have h1 : ((statusReadTxs dev).countP isPointRead) = 0 := rfl
    have h2 : (([clearStatusTx]).countP isPointRead) = 0 := rfl
    rw [h1, h2]
    omega

/-- C10 instantiated at a status byte 0x8F: fifteen coordinate reads are
issued, three times the controller's 5-point limit. -/
theorem C10_unclamped_count_witness :
    ((getCoords packedDev).1.countP isPointRead) = 15 := by
  have h := C10_unclamped_count packedDev (by decide)
  exact h.trans (by decide)

end GT911
